import Mathlib

/-!
Verification development for the SafePath sensor-data scraper
(SensorDataScraper.py).

The file shallowly embeds the core of the program:

* the category registry SENSOR_CATEGORIES;
* the normalizer convert_csv_to_json (two passes over the raw rows);
* the JSON serialization performed by json.dump(categorized_data, f, indent=4);
* the per-cycle scrape pipeline scrape_sensor_data and the background
  refresh loop start_auto_scraper, as explicit state transformers over the
  two well-known files (sensor_data.csv and sensor_data.json);
* the read endpoint get_sensor_data.

Raw rows are modelled with the five string fields the scraper extracts from
the HTML table.  JSON values are modelled by the inductive JVal: every value
the program puts into the snapshot is either a string taken from a raw row,
a literal string sentinel, or the Python float literal 0.0; floats are
modelled as rationals (the only float the program ever writes is 0.0).
-/

namespace SafePath

/-- A raw scraped row, as assembled in scrape_sensor_data: the five cells
SENSOR NAME, OBS TIME, NORMAL LEVEL, CURRENT, DESCRIPTION, all text. -/
structure RawRow where
  sensorName : String
  obsTime : String
  normalLevel : String
  current : String
  description : String
deriving DecidableEq

/-- A JSON scalar value as written into sensor_data.json: either a string,
or a number.  The only number the program ever writes is the float literal
0.0 (the flood_risk_index sentinel), modelled as the rational 0. -/
inductive JVal where
  | str (s : String)
  | num (q : ℚ)
deriving DecidableEq

/-- The closed enumeration of category identifiers (the keys of
SENSOR_CATEGORIES, in Python dict insertion order). -/
inductive Category where
  | rain_gauge
  | flood_sensors
  | street_flood_sensors
  | flood_risk_index
  | earthquake_sensors
deriving DecidableEq

/-- The static category registry SENSOR_CATEGORIES (lines 50-72 of the
source), verbatim. -/
def SENSOR_CATEGORIES : Category → List String
  | .rain_gauge =>
      ["QCPU", "Masambong", "Batasan Hills", "Ugong Norte", "Ramon Magsaysay HS",
       "UP Village", "Dona Imelda", "Kaligayahan", "Emilio Jacinto Sr HS", "Payatas ES",
       "Ramon Magsaysay Brgy Hall", "Phil-Am", "Holy Spirit", "Libis",
       "South Triangle", "Nagkaisang Nayon", "Tandang Sora", "Talipapa",
       "Brgy Fairview (REC)", "Brgy Baesa Hall", "Brgy N.S Amoranto Hall", "Brgy Valencia Hall"]
  | .flood_sensors =>
      ["North Fairview", "Batasan-San Mateo", "Bahay Toro", "Sta Cruz", "San Bartolome"]
  | .street_flood_sensors =>
      ["N.S. Amoranto Street", "New Greenland", "Kalantiaw Street", "F. Calderon Street",
       "Christine Street", "Ramon Magsaysay Brgy Hall", "Phil-Am", "Holy Spirit",
       "Libis", "South Triangle", "Nagkaisang Nayon", "Tandang Sora", "Talipapa"]
  | .flood_risk_index =>
      ["N.S. Amoranto Street", "New Greenland", "Kalantiaw Street", "F. Calderon Street",
       "Christine Street", "Ramon Magsaysay Brgy Hall", "Phil-Am", "Holy Spirit",
       "Libis", "South Triangle", "Nagkaisang Nayon", "Tandang Sora", "Talipapa"]
  | .earthquake_sensors => ["QCDRRMO", "QCDRRMO REC"]

/-- A sensor record as written into the snapshot: the dict built at lines
185-221.  Key insertion order is always SENSOR NAME, CURRENT, then
optionally NORMAL LEVEL and DESCRIPTION; absence of the two optional keys
is modelled by none. -/
structure SensorEntry where
  sensorName : String
  current : JVal
  normalLevel : Option String
  description : Option String
deriving DecidableEq

/-- The categorized_data dict: one list of records per category, in dict
insertion order rain_gauge, flood_sensors, street_flood_sensors,
flood_risk_index, earthquake_sensors. -/
structure Snapshot where
  rain_gauge : List SensorEntry
  flood_sensors : List SensorEntry
  street_flood_sensors : List SensorEntry
  flood_risk_index : List SensorEntry
  earthquake_sensors : List SensorEntry
deriving DecidableEq

/-- Bucket lookup in a snapshot. -/
def Snapshot.get (s : Snapshot) : Category → List SensorEntry
  | .rain_gauge => s.rain_gauge
  | .flood_sensors => s.flood_sensors
  | .street_flood_sensors => s.street_flood_sensors
  | .flood_risk_index => s.flood_risk_index
  | .earthquake_sensors => s.earthquake_sensors

/-- Append one record to one bucket (the categorized_data[category].append
calls). -/
def Snapshot.push (s : Snapshot) : Category → SensorEntry → Snapshot
  | .rain_gauge, e => { s with rain_gauge := s.rain_gauge ++ [e] }
  | .flood_sensors, e => { s with flood_sensors := s.flood_sensors ++ [e] }
  | .street_flood_sensors, e => { s with street_flood_sensors := s.street_flood_sensors ++ [e] }
  | .flood_risk_index, e => { s with flood_risk_index := s.flood_risk_index ++ [e] }
  | .earthquake_sensors, e => { s with earthquake_sensors := s.earthquake_sensors ++ [e] }

/-- The empty result buckets built at line 179. -/
def emptySnapshot : Snapshot := ⟨[], [], [], [], []⟩

/-- Python list/str containment: needle occurs as a contiguous sublist of
hay.  Models the operator used at line 189 and at line 195 (for line 195
the needle is a whole element, see classifyRow). -/
def listInfix (needle : List Char) : List Char → Bool
  | [] => needle.isEmpty
  | c :: t => needle.isPrefixOf (c :: t) || listInfix needle t

/-- Python substring test: needle in hay, for strings (line 189). -/
def pyInStr (needle hay : String) : Bool := listInfix needle.data hay.data

/-- The body of the first-pass branch (lines 185-194): the entry built for
a row, and the category chosen for it by the unit-marker test
if m in str(current_value). -/
def firstPassEntry (r : RawRow) : Category × SensorEntry :=
  if pyInStr "m" r.current then
    (Category.street_flood_sensors,
      { sensorName := r.sensorName, current := JVal.str r.current,
        normalLevel := some r.normalLevel, description := some r.description })
  else
    (Category.flood_risk_index,
      { sensorName := r.sensorName, current := JVal.str r.current,
        normalLevel := none, description := none })

/-- One iteration of the first-pass loop (lines 180-196): the entry is
appended only when the row name is a member of the chosen category's
registry list; Python list membership on strings is case-sensitive
exact equality. -/
def classifyRow (acc : Snapshot) (r : RawRow) : Snapshot :=
  let ce := firstPassEntry r
  if (SENSOR_CATEGORIES ce.1).contains r.sensorName then acc.push ce.1 ce.2 else acc

/-- Python str.casefold, used at line 200.  On the ASCII data this program
handles, casefold coincides with per-character lower-casing. -/
def casefold (s : String) : String := String.mk (s.data.map Char.toLower)

/-- The row matched for an expected second-pass name:
df[df[SENSOR NAME].str.casefold() == sensor_name.casefold()] followed by
iloc[0], i.e. the first row (in row order) whose name is casefold-equal to
the registry name (lines 200-204). -/
def findMatch (rows : List RawRow) (name : String) : Option RawRow :=
  rows.find? (fun r => casefold r.sensorName == casefold name)

/-- The record emitted in the second pass for one expected registry name
(lines 199-221): populated from the first casefold-match when one exists,
otherwise the sentinel record.  NORMAL LEVEL and DESCRIPTION are attached
only for flood_sensors; the sentinel current value is the string 0.0m for
street_flood_sensors (a branch that is dead, since that category is skipped
by the second pass) and the float 0.0 otherwise. -/
def secondPassEntry (cat : Category) (rows : List RawRow) (name : String) : SensorEntry :=
  match findMatch rows name with
  | some r =>
      { sensorName := name, current := JVal.str r.current,
        normalLevel := if cat = Category.flood_sensors then some r.normalLevel else none,
        description := if cat = Category.flood_sensors then some r.description else none }
  | none =>
      { sensorName := name,
        current := if cat = Category.street_flood_sensors then JVal.str "0.0m" else JVal.num 0,
        normalLevel := if cat = Category.flood_sensors then some "N/A" else none,
        description := if cat = Category.flood_sensors then some "N/A" else none }

/-- The second pass (lines 197-221): for every category other than
street_flood_sensors and flood_risk_index, append one record per expected
registry name, in registry order, to that category's bucket. -/
def secondPass (rows : List RawRow) (acc : Snapshot) : Snapshot :=
  { acc with
    rain_gauge :=
      acc.rain_gauge ++ (SENSOR_CATEGORIES .rain_gauge).map (secondPassEntry .rain_gauge rows),
    flood_sensors :=
      acc.flood_sensors ++ (SENSOR_CATEGORIES .flood_sensors).map (secondPassEntry .flood_sensors rows),
    earthquake_sensors :=
      acc.earthquake_sensors ++ (SENSOR_CATEGORIES .earthquake_sensors).map (secondPassEntry .earthquake_sensors rows) }

/-- The normalizer convert_csv_to_json (lines 177-221), as a function of
the raw rows stored in the CSV file: the first-pass loop over the rows
followed by the second pass over the registry.  (The CSV round trip
preserves the scraped text cells; the write of sensor_data.json is
modelled separately as part of the file-state pipeline.) -/
def convert_csv_to_json (rows : List RawRow) : Snapshot :=
  secondPass rows (rows.foldl classifyRow emptySnapshot)

/-! JSON serialization: json.dump(categorized_data, f, indent=4) (line 223).
Escaping follows Python's default ensure_ascii=True encoder. -/

/-- Lower-case hexadecimal digit, as Python's \uXXXX escapes use. -/
def hexDigit (n : Nat) : Char :=
  if n < 10 then Char.ofNat (48 + n) else Char.ofNat (87 + n)

/-- Four lower-case hex digits. -/
def hex4 (n : Nat) : String :=
  String.mk [hexDigit (n / 4096 % 16), hexDigit (n / 256 % 16),
             hexDigit (n / 16 % 16), hexDigit (n % 16)]

/-- Python json escaping of one character (ensure_ascii=True): the short
escapes, \uXXXX for other control or non-ASCII characters, and surrogate
pairs beyond the basic multilingual plane. -/
def escapeChar (c : Char) : String :=
  if c = '"' then "\\\""
  else if c = '\\' then "\\\\"
  else if c = '\n' then "\\n"
  else if c = '\t' then "\\t"
  else if c = '\r' then "\\r"
  else if c.toNat = 8 then "\\b"
  else if c.toNat = 12 then "\\f"
  else if c.toNat < 32 then "\\u" ++ hex4 c.toNat
  else if c.toNat < 127 then String.mk [c]
  else if c.toNat < 65536 then "\\u" ++ hex4 c.toNat
  else
    "\\u" ++ hex4 (55296 + (c.toNat - 65536) / 1024) ++
    "\\u" ++ hex4 (56320 + (c.toNat - 65536) % 1024)

/-- A JSON string literal for s. -/
def pyJsonStr (s : String) : String :=
  "\"" ++ String.join (s.data.map escapeChar) ++ "\""

/-- Rendering of a JSON scalar.  The only number the program writes is the
float 0.0, and Python repr of an integral float prints the integer part
followed by .0; non-integral rationals never occur in a snapshot. -/
def renderJVal : JVal → String
  | .str s => pyJsonStr s
  | .num q => if q.den = 1 then toString q.num ++ ".0" else toString q.num ++ "." ++ toString q.den

/-- n spaces of indentation. -/
def spaces (n : Nat) : String := String.mk (List.replicate n ' ')

/-- The key/value pairs of one record, in dict insertion order. -/
def entryFields (e : SensorEntry) : List (String × String) :=
  [("SENSOR NAME", pyJsonStr e.sensorName), ("CURRENT", renderJVal e.current)]
    ++ (match e.normalLevel with
        | some v => [("NORMAL LEVEL", pyJsonStr v)]
        | none => [])
    ++ (match e.description with
        | some v => [("DESCRIPTION", pyJsonStr v)]
        | none => [])

/-- One record object at indentation ind, in indent=4 style. -/
def serializeEntry (ind : Nat) (e : SensorEntry) : String :=
  "\x7b\n" ++
    String.intercalate ",\n"
      ((entryFields e).map (fun kv => spaces (ind + 4) ++ pyJsonStr kv.1 ++ ": " ++ kv.2)) ++
    "\n" ++ spaces ind ++ "\x7d"

/-- One category bucket at indentation ind, in indent=4 style (an empty
list prints as a bare pair of brackets on the key's line). -/
def serializeCatList (ind : Nat) (entries : List SensorEntry) : String :=
  if entries.isEmpty then "[]"
  else
    "[\n" ++
      String.intercalate ",\n"
        (entries.map (fun e => spaces (ind + 4) ++ serializeEntry (ind + 4) e)) ++
      "\n" ++ spaces ind ++ "]"

/-- The category keys, in dict insertion order. -/
def categoryOrder : List Category :=
  [.rain_gauge, .flood_sensors, .street_flood_sensors, .flood_risk_index, .earthquake_sensors]

/-- The JSON key of a category. -/
def categoryKey : Category → String
  | .rain_gauge => "rain_gauge"
  | .flood_sensors => "flood_sensors"
  | .street_flood_sensors => "street_flood_sensors"
  | .flood_risk_index => "flood_risk_index"
  | .earthquake_sensors => "earthquake_sensors"

/-- The full text json.dump writes for a snapshot. -/
def serializeSnapshot (s : Snapshot) : String :=
  "\x7b\n" ++
    String.intercalate ",\n"
      (categoryOrder.map
        (fun c => spaces 4 ++ pyJsonStr (categoryKey c) ++ ": " ++ serializeCatList 4 (s.get c))) ++
    "\n\x7d"

/-! The file-state pipeline: scrape_sensor_data, the refresh loop, the read
endpoint.  The two well-known files are explicit state; the CSV file holds
the row list it stores, the JSON file holds its raw text. -/

/-- The contents of sensor_data.csv and sensor_data.json; none is a file
that does not exist. -/
structure FileState where
  csv : Option (List RawRow)
  json : Option String
deriving DecidableEq

/-- What one extraction attempt produced: a row list, or a raised error
(page-load timeout or missing table structure, lines 135-136). -/
inductive ExtractResult where
  | ok (rows : List RawRow)
  | err
deriving DecidableEq

/-- The error raised out of one scrape cycle. -/
inductive ScrapeError where
  | extraction
  | empty
  | persistence
deriving DecidableEq

/-- The sequence of raw text states of a file that is opened with mode w
and then written front to back: the open truncates it immediately, and at
any instant a concurrent reader sees some prefix of the final content. -/
def overwriteObservableStates (content : String) : List String :=
  (List.range (content.length + 1)).map (fun k => String.mk (content.data.take k))

/-- Modelled from the spec: the observable states of an atomic publish in
which the representation is written to a temporary location and made
visible as a unit, so a reader sees either the old content or the new one
and nothing else.  This definition exists only for comparison with the
in-place overwrite the source performs; no such temporary file appears in
the source. -/
def atomicPublishObservableStates (old new : String) : List String := [old, new]

/-- One run of scrape_sensor_data (lines 128-164) over the file state:
an extraction failure or an empty row list raises before any file is
touched; otherwise save_csv writes the CSV and convert_csv_to_json writes
sensor_data.json.  persistFault injects an I/O failure into the JSON
write: the file was opened with mode w (truncated), k characters were
written, and then the write raised — so the file is left holding a prefix
of the new text.  The pair returned is the raised error (if any) and the
resulting file state. -/
def scrape_sensor_data (ext : ExtractResult) (persistFault : Option Nat)
    (st : FileState) : Option ScrapeError × FileState :=
  match ext with
  | .err => (some ScrapeError.extraction, st)
  | .ok rows =>
    if rows.isEmpty then (some ScrapeError.empty, st)
    else
      let st1 : FileState := { st with csv := some rows }
      let out := serializeSnapshot (convert_csv_to_json rows)
      match persistFault with
      | none => (none, { st1 with json := some out })
      | some k => (some ScrapeError.persistence, { st1 with json := some (String.mk (out.data.take k)) })

/-- One iteration of the start_auto_scraper loop body (lines 238-245):
scrape_sensor_data is called once, any exception it raises is caught and
logged, and the loop proceeds to the next interval with whatever file
state the cycle left behind. -/
def start_auto_scraper_step (cycle : ExtractResult × Option Nat) (st : FileState) : FileState :=
  (scrape_sensor_data cycle.1 cycle.2 st).2

/-- The refresh loop run over a finite schedule of cycles (each cycle an
extraction outcome and an optional injected persistence fault). -/
def start_auto_scraper_run (cycles : List (ExtractResult × Option Nat)) (st : FileState) : FileState :=
  cycles.foldl (fun s c => start_auto_scraper_step c s) st

/-- The outcome of the open/json.load attempt in get_sensor_data:
the file is absent (FileNotFoundError), its text does not parse
(json.JSONDecodeError), or a document was loaded. -/
inductive LoadResult where
  | missing
  | corrupt
  | loaded (doc : Snapshot)
deriving DecidableEq

/-- The fallback document built at line 235: every registry category key
mapped to an empty list. -/
def emptyFallbackDoc : Snapshot := ⟨[], [], [], [], []⟩

/-- The read endpoint get_sensor_data (lines 226-235): the loaded document
when the load succeeds, and the empty fallback document when the file is
missing or its contents are corrupt; no branch raises to the caller. -/
def get_sensor_data : LoadResult → Snapshot
  | .missing => emptyFallbackDoc
  | .corrupt => emptyFallbackDoc
  | .loaded doc => doc

/-- One standalone invocation of convert_csv_to_json as a transformer of
the file state: it reads sensor_data.csv and overwrites sensor_data.json
with the serialized snapshot.  A missing CSV makes pd.read_csv raise
before anything is written, leaving the state unchanged. -/
def convert_step (st : FileState) : FileState :=
  match st.csv with
  | some rows => { st with json := some (serializeSnapshot (convert_csv_to_json rows)) }
  | none => st

/-! Concrete fixtures used to instantiate the theorems. -/

/-- A raw row named Phil-Am (a name on both the street_flood_sensors and
flood_risk_index registries) whose current value carries the unit marker. -/
def philAmStreetRow : RawRow := ⟨"Phil-Am", "t", "0.30m", "0.35m", "Normal"⟩

/-- The same sensor with a unitless current value. -/
def philAmIndexRow : RawRow := ⟨"Phil-Am", "t", "0.30m", "1.2", "Normal"⟩

/-- A raw row whose name is a lower-case variant of the rain_gauge registry
entry QCPU. -/
def qcpuRow : RawRow := ⟨"qcpu", "t", "nl", "7.5", "desc"⟩

/-- A lower-case variant of Phil-Am with a unit-marked current value: the
first pass picks street_flood_sensors for it but its name is not a
case-sensitive member of that registry. -/
def lowerPhilAmRow : RawRow := ⟨"phil-am", "t", "0.30m", "0.35m", "Normal"⟩

/-- The serialized snapshot of a one-row scrape; stands for the previously
published snapshot text in the torn-write instances. -/
def oldSnapshotText : String := serializeSnapshot (convert_csv_to_json [philAmStreetRow])

/-- The serialized snapshot the next publish writes. -/
def newSnapshotText : String := serializeSnapshot (convert_csv_to_json [])

/-- A file state holding a previously published snapshot. -/
def stWithOldSnapshot : FileState := ⟨some [philAmStreetRow], some oldSnapshotText⟩

/-! Auxiliary lemmas. -/

theorem string_data_append (a b : String) : (a ++ b).data = a.data ++ b.data := rfl

theorem serializeSnapshot_ne_empty (s : Snapshot) : serializeSnapshot s ≠ "" := by
  intro h
  have h2 := congrArg String.data h
  rw [serializeSnapshot, string_data_append, string_data_append] at h2
  simp at h2

theorem classifyRow_rain_gauge (acc : Snapshot) (r : RawRow) :
    (classifyRow acc r).rain_gauge = acc.rain_gauge := by
  unfold classifyRow firstPassEntry
  by_cases h : pyInStr "m" r.current <;> simp [h, Snapshot.push] <;> split <;> rfl

theorem classifyRow_flood_sensors (acc : Snapshot) (r : RawRow) :
    (classifyRow acc r).flood_sensors = acc.flood_sensors := by
  unfold classifyRow firstPassEntry
  by_cases h : pyInStr "m" r.current <;> simp [h, Snapshot.push] <;> split <;> rfl

theorem classifyRow_earthquake_sensors (acc : Snapshot) (r : RawRow) :
    (classifyRow acc r).earthquake_sensors = acc.earthquake_sensors := by
  unfold classifyRow firstPassEntry
  by_cases h : pyInStr "m" r.current <;> simp [h, Snapshot.push] <;> split <;> rfl

theorem foldl_classifyRow_rain_gauge (rows : List RawRow) (acc : Snapshot) :
    (rows.foldl classifyRow acc).rain_gauge = acc.rain_gauge := by
  induction rows generalizing acc with
  | nil => rfl
  | cons r t ih => rw [List.foldl_cons, ih, classifyRow_rain_gauge]

theorem foldl_classifyRow_flood_sensors (rows : List RawRow) (acc : Snapshot) :
    (rows.foldl classifyRow acc).flood_sensors = acc.flood_sensors := by
  induction rows generalizing acc with
  | nil => rfl
  | cons r t ih => rw [List.foldl_cons, ih, classifyRow_flood_sensors]

theorem foldl_classifyRow_earthquake_sensors (rows : List RawRow) (acc : Snapshot) :
    (rows.foldl classifyRow acc).earthquake_sensors = acc.earthquake_sensors := by
  induction rows generalizing acc with
  | nil => rfl
  | cons r t ih => rw [List.foldl_cons, ih, classifyRow_earthquake_sensors]

theorem convert_rain_gauge (rows : List RawRow) :
    (convert_csv_to_json rows).get Category.rain_gauge
      = (SENSOR_CATEGORIES Category.rain_gauge).map (secondPassEntry Category.rain_gauge rows) := by
  show (secondPass rows (rows.foldl classifyRow emptySnapshot)).rain_gauge = _
  rw [secondPass]
  rw [show (rows.foldl classifyRow emptySnapshot).rain_gauge = [] from
        foldl_classifyRow_rain_gauge rows emptySnapshot]
  rfl

theorem convert_flood_sensors (rows : List RawRow) :
    (convert_csv_to_json rows).get Category.flood_sensors
      = (SENSOR_CATEGORIES Category.flood_sensors).map (secondPassEntry Category.flood_sensors rows) := by
  show (secondPass rows (rows.foldl classifyRow emptySnapshot)).flood_sensors = _
  rw [secondPass]
  rw [show (rows.foldl classifyRow emptySnapshot).flood_sensors = [] from
        foldl_classifyRow_flood_sensors rows emptySnapshot]
  rfl

theorem convert_earthquake_sensors (rows : List RawRow) :
    (convert_csv_to_json rows).get Category.earthquake_sensors
      = (SENSOR_CATEGORIES Category.earthquake_sensors).map (secondPassEntry Category.earthquake_sensors rows) := by
  show (secondPass rows (rows.foldl classifyRow emptySnapshot)).earthquake_sensors = _
  rw [secondPass]
  rw [show (rows.foldl classifyRow emptySnapshot).earthquake_sensors = [] from
        foldl_classifyRow_earthquake_sensors rows emptySnapshot]
  rfl

theorem secondPassEntry_sensorName (cat : Category) (rows : List RawRow) (name : String) :
    (secondPassEntry cat rows name).sensorName = name := by
  unfold secondPassEntry
  cases findMatch rows name <;> rfl

theorem countP_beq_of_nodup {l : List String} (hnd : l.Nodup) {name : String} (hm : name ∈ l) :
    l.countP (fun n => n == name) = 1 := by
  induction l with
  | nil => cases hm
  | cons a t ih =>
    rw [List.countP_cons]
    rcases List.mem_cons.mp hm with rfl | hmt
    · have hz : t.countP (fun n => n == name) = 0 := by
        apply List.countP_eq_zero.mpr
        intro x hx
        have hne : x ≠ name := fun e => (List.nodup_cons.mp hnd).1 (e ▸ hx)
        simp [hne]
      simp [hz]
    · have hne : a ≠ name := by
        intro e
        exact (List.nodup_cons.mp hnd).1 (e ▸ hmt)
      rw [ih (List.nodup_cons.mp hnd).2 hmt]
      simp [hne]

theorem empty_mem_overwriteObservableStates (content : String) :
    "" ∈ overwriteObservableStates content := by
  rw [overwriteObservableStates]
  refine List.mem_map.mpr ⟨0, List.mem_range.mpr (Nat.succ_pos _), ?_⟩
  rw [List.take_zero]

theorem listInfix_m (l : List Char) : listInfix ['m'] l = true ↔ 'm' ∈ l := by
  induction l with
  | nil => simp [listInfix, List.isEmpty]
  | cons c t ih =>
    have hp : (['m'].isPrefixOf (c :: t)) = ('m' == c) := by
      simp [List.isPrefixOf]
    rw [listInfix, hp]
    simp [ih, List.mem_cons]

/-! Claim theorems. -/

/-- C1 (amended): for the categories filled by the second pass —
rain_gauge, flood_sensors and earthquake_sensors — every sensor name of
the category's registry appears exactly once in that category's sequence
of the snapshot, for every raw-row input; the street_flood_sensors and
flood_risk_index sequences are instead populated only from matching raw
rows by the first pass, so a registry name with no matching row is omitted
there (and rows may repeat). -/
theorem registry_names_exactly_once (rows : List RawRow) (cat : Category)
    (hcat : cat = Category.rain_gauge ∨ cat = Category.flood_sensors ∨
      cat = Category.earthquake_sensors)
    (name : String) (hmem : name ∈ SENSOR_CATEGORIES cat) :
    ((convert_csv_to_json rows).get cat).countP (fun e => e.sensorName == name) = 1 := by
  have hmap : (convert_csv_to_json rows).get cat
      = (SENSOR_CATEGORIES cat).map (secondPassEntry cat rows) := by
    rcases hcat with rfl | rfl | rfl
    · exact convert_rain_gauge rows
    · exact convert_flood_sensors rows
    · exact convert_earthquake_sensors rows
  have hnd : (SENSOR_CATEGORIES cat).Nodup := by
    rcases hcat with rfl | rfl | rfl <;> decide
  rw [hmap, List.countP_map]
  have hcomp : ((fun e => e.sensorName == name) ∘ secondPassEntry cat rows)
      = (fun n => n == name) := by
    funext n
    simp [Function.comp, secondPassEntry_sensorName]
  rw [hcomp]
  exact countP_beq_of_nodup hnd hmem

/-- Witness for C1's amended theorem at a concrete input. -/
theorem registry_names_exactly_once_witness :
    "QCPU" ∈ SENSOR_CATEGORIES Category.rain_gauge ∧
    ((convert_csv_to_json []).get Category.rain_gauge).countP
      (fun e => e.sensorName == "QCPU") = 1 :=
  ⟨by decide,
   registry_names_exactly_once [] Category.rain_gauge (Or.inl rfl) "QCPU" (by decide)⟩

/-- C1 counterexample: on the empty raw-row input the street_flood_sensors
sequence of the snapshot is empty, so the registry name
N.S. Amoranto Street is omitted rather than sentinel-filled. -/
theorem street_flood_registry_name_omitted :
    "N.S. Amoranto Street" ∈ SENSOR_CATEGORIES Category.street_flood_sensors ∧
    ((convert_csv_to_json []).get Category.street_flood_sensors).countP
      (fun e => e.sensorName == "N.S. Amoranto Street") = 0 :=
  ⟨by decide, rfl⟩

/-- C10: the first-pass unit-marker test is the Python substring test
of m against str(current_value): a row is routed to the
street_flood_sensors family exactly when the character m occurs anywhere
in its current value (not only as a trailing suffix), and to the
flood_risk_index family otherwise. -/
theorem unit_marker_is_substring_check (r : RawRow) :
    ((firstPassEntry r).1 = Category.street_flood_sensors ↔ 'm' ∈ r.current.data) ∧
    ((firstPassEntry r).1 = Category.flood_risk_index ↔ 'm' ∉ r.current.data) := by
  have hiff := listInfix_m r.current.data
  unfold firstPassEntry
  by_cases h : pyInStr "m" r.current
  · have hmem : 'm' ∈ r.current.data := hiff.mp h
    simp [h, hmem]
  · have hmem : ¬ 'm' ∈ r.current.data := fun hc => h (hiff.mpr hc)
    simp [h, hmem]

/-- C2: a raw row whose name is on both the street_flood_sensors and the
flood_risk_index registries is classified by the first pass into exactly
one of the two buckets, by the unit-marker test: with the marker, only the
street_flood_sensors bucket grows, by a record that also carries
normal_level and description; without it, only the flood_risk_index bucket
grows, by a record carrying name and current value only.  All other
buckets are untouched in both cases. -/
theorem first_pass_tie_break (acc : Snapshot) (r : RawRow)
    (hstreet : r.sensorName ∈ SENSOR_CATEGORIES Category.street_flood_sensors)
    (hindex : r.sensorName ∈ SENSOR_CATEGORIES Category.flood_risk_index) :
    (pyInStr "m" r.current = true →
      classifyRow acc r =
        { acc with street_flood_sensors := acc.street_flood_sensors ++
            [{ sensorName := r.sensorName, current := JVal.str r.current,
               normalLevel := some r.normalLevel, description := some r.description }] }) ∧
    (pyInStr "m" r.current = false →
      classifyRow acc r =
        { acc with flood_risk_index := acc.flood_risk_index ++
            [{ sensorName := r.sensorName, current := JVal.str r.current,
               normalLevel := none, description := none }] }) := by
  constructor <;> intro hm <;>
    simp [classifyRow, firstPassEntry, hm, Snapshot.push, List.contains, hstreet, hindex]

/-- Witness for C2 at concrete rows: Phil-Am with current value 0.35m goes
only to street_flood_sensors, and with current value 1.2 only to
flood_risk_index. -/
theorem first_pass_tie_break_witness :
    (pyInStr "m" philAmStreetRow.current = true ∧
      classifyRow emptySnapshot philAmStreetRow =
        { emptySnapshot with street_flood_sensors := emptySnapshot.street_flood_sensors ++
            [{ sensorName := philAmStreetRow.sensorName,
               current := JVal.str philAmStreetRow.current,
               normalLevel := some philAmStreetRow.normalLevel,
               description := some philAmStreetRow.description }] }) ∧
    (pyInStr "m" philAmIndexRow.current = false ∧
      classifyRow emptySnapshot philAmIndexRow =
        { emptySnapshot with flood_risk_index := emptySnapshot.flood_risk_index ++
            [{ sensorName := philAmIndexRow.sensorName,
               current := JVal.str philAmIndexRow.current,
               normalLevel := none, description := none }] }) :=
  ⟨⟨by decide,
    (first_pass_tie_break emptySnapshot philAmStreetRow (by decide) (by decide)).1 (by decide)⟩,
   ⟨by decide,
    (first_pass_tie_break emptySnapshot philAmIndexRow (by decide) (by decide)).2 (by decide)⟩⟩

/-- C4: when no raw row matches an expected flood_sensors name, the
snapshot's flood_sensors sequence carries for that name the sentinel
record with numeric current value 0.0, normal level N/A, description
N/A. -/
theorem flood_sensors_sentinel (rows : List RawRow) (name : String)
    (hmem : name ∈ SENSOR_CATEGORIES Category.flood_sensors)
    (hno : ∀ r ∈ rows, casefold r.sensorName ≠ casefold name) :
    ({ sensorName := name, current := JVal.num 0,
       normalLevel := some "N/A", description := some "N/A" } : SensorEntry)
      ∈ (convert_csv_to_json rows).get Category.flood_sensors := by
  rw [convert_flood_sensors]
  have hfind : findMatch rows name = none := by
    apply List.find?_eq_none.mpr
    intro r hr
    simp only [beq_iff_eq]
    exact fun e => hno r hr e
  have hent : secondPassEntry Category.flood_sensors rows name
      = { sensorName := name, current := JVal.num 0,
          normalLevel := some "N/A", description := some "N/A" } := by
    rw [secondPassEntry, hfind]
    rfl
  exact hent ▸ List.mem_map_of_mem _ hmem

/-- Witness for C4: the empty raw-row input omits Sta Cruz, which gets the
sentinel record. -/
theorem flood_sensors_sentinel_witness :
    ({ sensorName := "Sta Cruz", current := JVal.num 0,
       normalLevel := some "N/A", description := some "N/A" } : SensorEntry)
      ∈ (convert_csv_to_json []).get Category.flood_sensors :=
  flood_sensors_sentinel [] "Sta Cruz" (by decide) (by intro r hr; cases hr)

/-- C5: a cycle whose extraction yields no rows raises the empty-result
error before either file is written: the error aborts the cycle, the
previously persisted snapshot state is retained unchanged, and the cycle
body runs the scrape exactly once (no within-cycle retry of the empty
result). -/
theorem empty_extraction_aborts (persistFault : Option Nat) (st : FileState) :
    scrape_sensor_data (ExtractResult.ok []) persistFault st
      = (some ScrapeError.empty, st) ∧
    start_auto_scraper_step (ExtractResult.ok [], persistFault) st = st :=
  ⟨rfl, rfl⟩

/-- C3 counterexample: the publish is an in-place overwrite of
sensor_data.json (the file is opened with mode w, which truncates it,
and the new text is then written), so during a publish a reader can
observe the truncated file — a state that is neither the old snapshot
text nor the new one, which a write-to-temporary-then-swap publish would
never expose. -/
theorem publish_not_atomic :
    "" ∈ overwriteObservableStates newSnapshotText ∧
    "" ∉ atomicPublishObservableStates oldSnapshotText newSnapshotText := by
  constructor
  · exact empty_mem_overwriteObservableStates newSnapshotText
  · intro h
    rw [atomicPublishObservableStates] at h
    rcases List.mem_cons.mp h with h1 | h1
    · exact serializeSnapshot_ne_empty (convert_csv_to_json [philAmStreetRow]) h1.symm
    · rcases List.mem_cons.mp h1 with h2 | h2
      · exact serializeSnapshot_ne_empty (convert_csv_to_json []) h2.symm
      · cases h2

/-- C3 (amended): a successful cycle persists the snapshot by overwriting
sensor_data.json in place with the serialized text, and whenever the prior
file content is not the empty string some state observable during the
overwrite (the truncated file) differs both from the prior content and
from the new content: a concurrent reader can see a torn write. -/
theorem publish_in_place_torn_state (st : FileState) (rows : List RawRow)
    (hrows : rows ≠ []) (hold : st.json ≠ some "") :
    (scrape_sensor_data (ExtractResult.ok rows) none st).2.json
      = some (serializeSnapshot (convert_csv_to_json rows)) ∧
    ∃ torn ∈ overwriteObservableStates (serializeSnapshot (convert_csv_to_json rows)),
      some torn ≠ st.json ∧
      some torn ≠ (scrape_sensor_data (ExtractResult.ok rows) none st).2.json := by
  have hwrite : (scrape_sensor_data (ExtractResult.ok rows) none st).2.json
      = some (serializeSnapshot (convert_csv_to_json rows)) := by
    cases rows with
    | nil => exact absurd rfl hrows
    | cons a t => rfl
  refine ⟨hwrite, "",
    empty_mem_overwriteObservableStates (serializeSnapshot (convert_csv_to_json rows)), ?_, ?_⟩
  · exact fun e => hold e.symm
  · rw [hwrite]
    intro e
    exact serializeSnapshot_ne_empty (convert_csv_to_json rows) (Option.some.inj e).symm

/-- Witness for C3's amended theorem at a concrete state and row list. -/
theorem publish_in_place_torn_state_witness :
    (scrape_sensor_data (ExtractResult.ok [philAmIndexRow]) none stWithOldSnapshot).2.json
      = some (serializeSnapshot (convert_csv_to_json [philAmIndexRow])) ∧
    ∃ torn ∈ overwriteObservableStates (serializeSnapshot (convert_csv_to_json [philAmIndexRow])),
      some torn ≠ stWithOldSnapshot.json ∧
      some torn ≠ (scrape_sensor_data (ExtractResult.ok [philAmIndexRow]) none stWithOldSnapshot).2.json :=
  publish_in_place_torn_state stWithOldSnapshot [philAmIndexRow]
    (by intro h; cases h)
    (fun h => serializeSnapshot_ne_empty (convert_csv_to_json [philAmStreetRow])
      (Option.some.inj h))

/-- C6 (amended): every per-cycle failure is caught at the refresh-loop
boundary, so the loop always proceeds to the next scheduled cycle; after
any schedule made of failed cycles of the extraction or empty-result kind
the persisted state — the previously published snapshot included — is
unchanged.  (A persistence failure mid-write is also caught and the loop
continues, but it can leave the snapshot file truncated; see the
counterexample.) -/
theorem refresh_loop_failure_isolation :
    (∀ (c : ExtractResult × Option Nat) (rest : List (ExtractResult × Option Nat))
        (st : FileState),
        start_auto_scraper_run (c :: rest) st
          = start_auto_scraper_run rest (start_auto_scraper_step c st)) ∧
    (∀ (cycles : List (ExtractResult × Option Nat)) (st : FileState),
        (∀ c ∈ cycles, c.1 = ExtractResult.err ∨ c.1 = ExtractResult.ok []) →
        start_auto_scraper_run cycles st = st) := by
  constructor
  · intro c rest st
    rfl
  · intro cycles
    induction cycles with
    | nil => intro st _; rfl
    | cons c t ih =>
      intro st hfail
      have hstep : start_auto_scraper_step c st = st := by
        obtain ⟨e, f⟩ := c
        rcases hfail ⟨e, f⟩ (List.mem_cons_self _ t) with h | h <;>
          simp only at h <;> subst h <;> rfl
      show start_auto_scraper_run t (start_auto_scraper_step c st) = st
      rw [hstep]
      exact ih st (fun x hx => hfail x (List.mem_cons_of_mem c hx))

/-- Witness for C6's amended theorem: a schedule of one extraction failure
and one empty-result failure leaves the state with the old snapshot
untouched. -/
theorem refresh_loop_failure_isolation_witness :
    start_auto_scraper_run [(ExtractResult.err, none), (ExtractResult.ok [], some 3)]
        stWithOldSnapshot
      = stWithOldSnapshot :=
  refresh_loop_failure_isolation.2
    [(ExtractResult.err, none), (ExtractResult.ok [], some 3)] stWithOldSnapshot
    (by decide)

/-- C6 counterexample: a persistence failure in the middle of the JSON
write is caught and the loop goes on, but the previously published
snapshot is not unchanged: the file is left truncated. -/
theorem persistence_failure_corrupts_snapshot :
    (start_auto_scraper_step (ExtractResult.ok [philAmIndexRow], some 0) stWithOldSnapshot).json
      ≠ stWithOldSnapshot.json := by
  show some (String.mk ((serializeSnapshot (convert_csv_to_json [philAmIndexRow])).data.take 0))
      ≠ some oldSnapshotText
  intro h
  exact serializeSnapshot_ne_empty (convert_csv_to_json [philAmStreetRow])
    (Option.some.inj h).symm

/-- C7: the read endpoint never signals an error for missing or unreadable
snapshot state: a missing file and a corrupt file both yield the
well-formed fallback document mapping every category to an empty sequence,
and a successfully loaded snapshot is returned as is. -/
theorem query_read_never_errors :
    (∀ cat : Category, (get_sensor_data LoadResult.missing).get cat = []) ∧
    (∀ cat : Category, (get_sensor_data LoadResult.corrupt).get cat = []) ∧
    (∀ doc : Snapshot, get_sensor_data (LoadResult.loaded doc) = doc) := by
  refine ⟨fun cat => ?_, fun cat => ?_, fun doc => rfl⟩ <;> cases cat <;> rfl

/-- C8: the second pass matches an expected registry name against raw rows
by case-insensitive (casefold) exact comparison — any casefold-equal row
makes the lookup succeed, and any row the lookup returns is
casefold-equal — while the first pass appends a record only under
case-sensitive exact membership of the row's name in the chosen category's
registry list: without it the row is dropped. -/
theorem matching_case_sensitivity :
    (∀ (rows : List RawRow) (name : String) (r : RawRow),
        r ∈ rows → casefold r.sensorName = casefold name →
        (findMatch rows name).isSome = true) ∧
    (∀ (rows : List RawRow) (name : String) (r : RawRow),
        findMatch rows name = some r → casefold r.sensorName = casefold name) ∧
    (∀ (acc : Snapshot) (r : RawRow),
        (SENSOR_CATEGORIES (firstPassEntry r).1).contains r.sensorName = false →
        classifyRow acc r = acc) := by
  refine ⟨?_, ?_, ?_⟩
  · intro rows name r hr he
    rw [findMatch]
    simp only [List.find?_isSome]
    exact ⟨r, hr, by simp [he]⟩
  · intro rows name r h
    have hp := List.find?_some h
    simpa using hp
  · intro acc r h
    have h2 : r.sensorName ∉ SENSOR_CATEGORIES (firstPassEntry r).1 := by
      simpa [List.contains] using h
    simp [classifyRow, h2]

/-- Witness for C8: the lower-case row qcpu matches the rain_gauge
registry entry QCPU in the second pass, while the lower-case row phil-am
(sent to street_flood_sensors by its unit marker) fails the case-sensitive
first-pass membership test and is dropped. -/
theorem matching_case_sensitivity_witness :
    (findMatch [qcpuRow] "QCPU").isSome = true ∧
    classifyRow emptySnapshot lowerPhilAmRow = emptySnapshot :=
  ⟨matching_case_sensitivity.1 [qcpuRow] "QCPU" qcpuRow (by decide) (by decide),
   matching_case_sensitivity.2.2 emptySnapshot lowerPhilAmRow (by decide)⟩

/-- C9: the normalizer is deterministic and idempotent: running
convert_csv_to_json a second time over the state the first run produced
changes nothing — the persisted snapshot text is byte-identical. -/
theorem normalizer_idempotent (st : FileState) :
    convert_step (convert_step st) = convert_step st := by
  obtain ⟨csv, json⟩ := st
  cases csv <;> rfl

end SafePath
